import Mathlib

/-!
Verification of the weekly AI digest pipeline (fetcher / analyzer / report
generator).  The Python sources are shallowly embedded: the external search
API (`exa_py`'s `search_and_contents`) and the chat-completion endpoint are
modelled as function parameters returning `Except` (an `Except.error`
models a raised exception at the call boundary); Python strings are
modelled by Lean `String` with character-level (`List Char`) primitives
mirroring Python's slicing / `replace` / `split` semantics; `datetime.now()`
is passed in as an opaque argument.
-/

namespace WeeklyDigest

/-- Python slicing `s[:n]` (by characters). -/
def strTake (s : String) (n : Nat) : String := ⟨s.data.take n⟩

/-- Python `x or default` for an optional/possibly-empty string: `None`
and `""` are falsy. -/
def pyOr (o : Option String) (d : String) : String :=
  match o with
  | some s => if s = "" then d else s
  | none => d

/-- Python `x[:n] if x else ""` — the content-excerpt capping idiom used by
the fetcher for every record. -/
def pyCap (o : Option String) (n : Nat) : String :=
  match o with
  | some s => if s = "" then "" else strTake s n
  | none => ""

/-- Python `sep.join(parts)`. -/
def pyJoin (sep : String) : List String → String
  | [] => ""
  | [s] => s
  | s :: rest => s ++ sep ++ pyJoin sep rest

/-- `pattern` is a prefix of the second list (used by `replaceList`). -/
def startsWith : List Char → List Char → Bool
  | [], _ => true
  | _ :: _, [] => false
  | a :: as, b :: bs => a = b && startsWith as bs

/-- Python `s.replace(old, new)` for a non-empty `old`: replace
non-overlapping occurrences left to right.  (The repository only calls it
with `old = "https://github.com/"`; for `old = []` we return the input
unchanged.) -/
def replaceList (old new : List Char) : List Char → List Char
  | [] => []
  | c :: cs =>
    if h : old ≠ [] ∧ startsWith old (c :: cs) = true
    then new ++ replaceList old new (List.drop old.length (c :: cs))
    else c :: replaceList old new cs
termination_by l => l.length
decreasing_by
  · simp only [List.length_drop]
    exact Nat.sub_lt (Nat.succ_pos _) (List.length_pos.mpr h.1)
  · simp

/-- Python `s.replace(old, new)` on strings. -/
def strReplace (s old new : String) : String := ⟨replaceList old.data new.data s.data⟩

/-- Python `s.split("/")` (split on a one-character separator, keeping
empty fields). -/
def splitSlash : List Char → List Char → List (List Char)
  | [], acc => [acc.reverse]
  | c :: cs, acc =>
      if c = '/' then acc.reverse :: splitSlash cs []
      else splitSlash cs (c :: acc)

/-! ## config.py -/

/-- `SEARCH_SETTINGS["num_results"]`. -/
def SEARCH_SETTINGS_num_results : Nat := 10

/-- `SEARCH_SETTINGS["days_back"]`. -/
def SEARCH_SETTINGS_days_back : Nat := 7

/-- `OPENROUTER_BASE_URL`. -/
def OPENROUTER_BASE_URL : String := "https://openrouter.ai/api/v1"

/-- `DEFAULT_MODEL`. -/
def DEFAULT_MODEL : String := "xiaomi/mimo-v2-flash:free"

/-- `TOPICS`. -/
def TOPICS : List String :=
  ["LLM", "large language model", "AI artificial intelligence", "robotics",
   "machine learning", "neural network", "GPT", "transformer model"]

/-! ## External search API boundary (exa_py) -/

/-- One result object returned by the search API (`results.results`
elements expose `url`, `title`, `text`, `highlights`, `published_date`,
`author`; optional attributes are modelled as `Option`, an absent
attribute and a `None` value alike as `none`). -/
structure ExaResult where
  url : String
  title : Option String
  text : Option String
  highlights : List String
  published_date : Option String
  author : Option String
deriving DecidableEq

/-- The parameters the fetcher passes to `search_and_contents`. -/
structure SearchReq where
  query : String
  num_results : Nat
  start_published_date : String
  end_published_date : String
  text : Bool
  highlights : Bool
deriving DecidableEq

/-- The external search API: a request either yields a result list or
raises (modelled by `Except.error` carrying the exception message). -/
def ExaApi : Type := SearchReq → Except String (List ExaResult)

/-! ## Data model -/

/-- A normalized fetched record.  The Python code builds plain dicts whose
key sets differ per category (`text` vs `description` vs `abstract`,
GitHub records add `name` and lack `author`); an absent key is `none`. -/
structure FetchRecord where
  source : String
  topic : String
  url : String
  title : String
  name : Option String := none
  text : Option String := none
  description : Option String := none
  abstract : Option String := none
  highlights : List String
  published_date : Option String
  author : Option String := none
deriving DecidableEq

/-- The `date_range` dict of a bundle. -/
structure DateRange where
  start : String
  «end» : String
deriving DecidableEq

/-- The dict returned by `fetch_all`. -/
structure FetchBundle where
  x_posts : List FetchRecord
  github_repos : List FetchRecord
  arxiv_papers : List FetchRecord
  fetch_date : String
  date_range : DateRange
deriving DecidableEq

/-! ## exa_fetcher.py -/

/-- `ExaFetcher.__init__` state (after a successful construction). -/
structure ExaFetcher where
  api_key : String
  num_results : Nat
  days_back : Nat
deriving DecidableEq

/-- `ExaFetcher.__init__`: `EXA_API_KEY` is `os.getenv` output (`none` if
unset); `if not EXA_API_KEY: raise ValueError(...)` treats `None` and `""`
as falsy.  No search request is issued here — the constructor only stores
configuration. -/
def exaFetcherInit (EXA_API_KEY : Option String) : Except String ExaFetcher :=
  match EXA_API_KEY with
  | none => .error "EXA_API_KEY not set. Please add it to your .env file."
  | some k =>
    if k = "" then .error "EXA_API_KEY not set. Please add it to your .env file."
    else .ok { api_key := k, num_results := SEARCH_SETTINGS_num_results,
               days_back := SEARCH_SETTINGS_days_back }

/-- `ExaFetcher._extract_repo_name`. -/
def extractRepoName (url : String) : String :=
  let parts := splitSlash (strReplace url "https://github.com/" "").data []
  match parts with
  | p0 :: p1 :: _ => (⟨p0⟩ : String) ++ "/" ++ (⟨p1⟩ : String)
  | _ => url

/-- The request `fetch_x_posts` issues for one topic. -/
def xSearchReq (dr : DateRange) (topic : String) : SearchReq :=
  { query := topic ++ " AI breakthrough OR announcement site:twitter.com OR site:x.com",
    num_results := SEARCH_SETTINGS_num_results,
    start_published_date := dr.start, end_published_date := dr.«end»,
    text := true, highlights := true }

/-- The request `fetch_github_trending` issues for one topic. -/
def githubSearchReq (dr : DateRange) (topic : String) : SearchReq :=
  { query := topic ++ " repository stars site:github.com",
    num_results := SEARCH_SETTINGS_num_results,
    start_published_date := dr.start, end_published_date := dr.«end»,
    text := true, highlights := true }

/-- The request `fetch_arxiv_papers` issues for one topic. -/
def arxivSearchReq (dr : DateRange) (topic : String) : SearchReq :=
  { query := topic ++ " research paper site:arxiv.org",
    num_results := SEARCH_SETTINGS_num_results,
    start_published_date := dr.start, end_published_date := dr.«end»,
    text := true, highlights := true }

/-- The dict `fetch_x_posts` appends for one result. -/
def mkXPost (topic : String) (r : ExaResult) : FetchRecord :=
  { source := "X/Twitter", topic := topic, url := r.url,
    title := pyOr r.title "No title",
    text := some (pyCap r.text 500),
    highlights := r.highlights,
    published_date := r.published_date,
    author := some (pyOr r.author "Unknown") }

/-- The dict `fetch_github_trending` appends for one result. -/
def mkGithubRepo (topic : String) (r : ExaResult) : FetchRecord :=
  { source := "GitHub", topic := topic, url := r.url,
    name := some (extractRepoName r.url),
    title := pyOr r.title (extractRepoName r.url),
    description := some (pyCap r.text 500),
    highlights := r.highlights,
    published_date := r.published_date }

/-- The dict `fetch_arxiv_papers` appends for one result. -/
def mkArxiv (topic : String) (r : ExaResult) : FetchRecord :=
  { source := "arXiv", topic := topic, url := r.url,
    title := pyOr r.title "Untitled Paper",
    abstract := some (pyCap r.text 800),
    highlights := r.highlights,
    published_date := r.published_date,
    author := some (pyOr r.author "Unknown") }

/-- The per-topic fetch loop shared verbatim by the three fetchers: for
each topic call the API; on success append the mapped records, on an
exception print and skip the topic (`except ... print`). -/
def fetchLoop (api : ExaApi) (mkReq : String → SearchReq)
    (mkRec : String → ExaResult → FetchRecord) : List String → List FetchRecord
  | [] => []
  | topic :: rest =>
    (match api (mkReq topic) with
     | .ok results => results.map (mkRec topic)
     | .error _ => []) ++ fetchLoop api mkReq mkRec rest

/-- `ExaFetcher.fetch_x_posts` (`for topic in topics[:3]`). -/
def fetch_x_posts (api : ExaApi) (dr : DateRange) (topics : List String) :
    List FetchRecord :=
  fetchLoop api (xSearchReq dr) mkXPost (topics.take 3)

/-- `ExaFetcher.fetch_github_trending` (`for topic in topics[:3]`). -/
def fetch_github_trending (api : ExaApi) (dr : DateRange) (topics : List String) :
    List FetchRecord :=
  fetchLoop api (githubSearchReq dr) mkGithubRepo (topics.take 3)

/-- `ExaFetcher.fetch_arxiv_papers` (`for topic in topics[:4]`). -/
def fetch_arxiv_papers (api : ExaApi) (dr : DateRange) (topics : List String) :
    List FetchRecord :=
  fetchLoop api (arxivSearchReq dr) mkArxiv (topics.take 4)

/-- `ExaFetcher.fetch_all`: the three category fetches in order, then the
bundle dict (`_get_date_range()` output `dr` and `datetime.now()` output
`fetch_date` are passed in). -/
def fetch_all (api : ExaApi) (dr : DateRange) (fetch_date : String)
    (topics : List String) : FetchBundle :=
  { x_posts := fetch_x_posts api dr topics,
    github_repos := fetch_github_trending api dr topics,
    arxiv_papers := fetch_arxiv_papers api dr topics,
    fetch_date := fetch_date,
    date_range := dr }

/-! ## llm_analyzer.py -/

/-- One role-tagged message of a completion request. -/
structure ChatMessage where
  role : String
  content : String
deriving DecidableEq

/-- The parameters `chat.completions.create` is called with. -/
structure ChatReq where
  model : String
  messages : List ChatMessage
  temperature : Rat
  max_tokens : Nat
deriving DecidableEq

/-- The completion API boundary: a request either yields the generated
text (`response.choices[0].message.content`) or raises (modelled by
`Except.error` carrying the exception message). -/
def ChatApi : Type := ChatReq → Except String String

/-- `LLMAnalyzer.__init__` state (after a successful construction). -/
structure LLMAnalyzer where
  api_key : String
  base_url : String
  model : String
deriving DecidableEq

/-- `LLMAnalyzer.__init__`: fails when `OPENROUTER_API_KEY` is falsy
(`None` or `""`); `self.model = model or DEFAULT_MODEL`.  No completion
request is issued here. -/
def llmAnalyzerInit (OPENROUTER_API_KEY : Option String) (model : Option String) :
    Except String LLMAnalyzer :=
  match OPENROUTER_API_KEY with
  | none => .error "OPENROUTER_API_KEY not set. Please add it to your .env file."
  | some k =>
    if k = "" then .error "OPENROUTER_API_KEY not set. Please add it to your .env file."
    else .ok { api_key := k, base_url := OPENROUTER_BASE_URL,
               model := pyOr model DEFAULT_MODEL }

/-- The `- **Date**:` value in `_format_items`:
`item.get('published_date', 'Unknown date')` — fetcher records always
carry the key, so a `None` value renders as Python `str(None)`. -/
def dateOf (item : FetchRecord) : String :=
  match item.published_date with
  | some d => d
  | none => "None"

/-- The `- **Content**:` value in `_format_items`:
`item.get('text', item.get('abstract', item.get('description', 'No content')))`. -/
def contentOf (item : FetchRecord) : String :=
  match item.text with
  | some t => t
  | none =>
    match item.abstract with
    | some a => a
    | none =>
      match item.description with
      | some d => d
      | none => "No content"

/-- The stanza body `_format_items` builds for item number `i` (before the
optional highlights line). -/
def entryCore (i : Nat) (item : FetchRecord) : String :=
  "\n### Item " ++ toString i ++ "\n" ++
  "- **Source**: " ++ item.source ++ "\n" ++
  "- **Topic**: " ++ item.topic ++ "\n" ++
  "- **Title**: " ++ item.title ++ "\n" ++
  "- **URL**: " ++ item.url ++ "\n" ++
  "- **Date**: " ++ dateOf item ++ "\n" ++
  "- **Content**: " ++ contentOf item ++ "\n"

/-- One full stanza of `_format_items`: the entry plus, when
`item.get('highlights')` is truthy, the `Key Highlights` line joining the
first three highlights with `" | "`. -/
def formatEntry (i : Nat) (item : FetchRecord) : String :=
  if item.highlights = [] then entryCore i item
  else entryCore i item ++ "- **Key Highlights**: " ++
       pyJoin " | " (item.highlights.take 3) ++ "\n"

/-- The stanzas of `_format_items`, enumerated from 1. -/
def formatItemsAux : Nat → List FetchRecord → List String
  | _, [] => []
  | i, item :: rest => formatEntry i item :: formatItemsAux (i + 1) rest

/-- `LLMAnalyzer._format_items`: `"\n".join(formatted)` over the stanzas. -/
def formatItems (items : List FetchRecord) : String :=
  pyJoin "\n" (formatItemsAux 1 items)

/-- `LLMAnalyzer._prepare_context`: one section header plus formatted
items per non-empty category, joined with `"\n"`. -/
def prepareContext (data : FetchBundle) : String :=
  let s1 : List String :=
    if data.x_posts = [] then []
    else ["## X/Twitter Posts\n", formatItems data.x_posts]
  let s2 : List String :=
    if data.github_repos = [] then []
    else ["\n## GitHub Repositories\n", formatItems data.github_repos]
  let s3 : List String :=
    if data.arxiv_papers = [] then []
    else ["\n## arXiv Papers\n", formatItems data.arxiv_papers]
  pyJoin "\n" (s1 ++ s2 ++ s3)

/-- The fixed system prompt of `analyze_and_compile`. -/
def systemPrompt : String :=
  "You are an expert AI/ML research analyst. Your job is to analyze \nrecent developments in AI, LLMs, and robotics, and compile a comprehensive weekly digest.\n\nYour report should:\n1. Identify the most significant developments and trends\n2. Group related items together thematically\n3. Provide insightful analysis on why these developments matter\n4. Include proper citations with URLs for all sources\n5. Highlight any breakthrough research or viral projects\n6. Note connections between different developments\n7. Provide a brief executive summary at the top\n\nFormat the report in clean Markdown with:\n- Executive Summary section\n- Key Themes/Trends section\n- Detailed breakdown by category (Papers, GitHub Projects, Social Discussion)\n- Each item should have a linked citation\n- A \"What to Watch\" section for emerging trends\n\nBe concise but thorough. Focus on signal over noise."

/-- The user prompt of `analyze_and_compile`: the fixed instruction text
around the bundle's date range and the serialized context. -/
def userPrompt (data : FetchBundle) : String :=
  "Please analyze the following data collected over the past week and compile \na comprehensive AI/ML/Robotics weekly digest with full citations and links.\n\nDate Range: " ++
  data.date_range.start ++ " to " ++ data.date_range.«end» ++ "\n\n" ++
  prepareContext data ++
  "\n\nPlease compile a comprehensive report with analysis, insights, and proper citations (include URLs)."

/-- The completion request `analyze_and_compile` submits. -/
def analyzeRequest (an : LLMAnalyzer) (data : FetchBundle) : ChatReq :=
  { model := an.model,
    messages := [⟨"system", systemPrompt⟩, ⟨"user", userPrompt data⟩],
    temperature := 7 / 10,
    max_tokens := 4000 }

/-- `LLMAnalyzer.analyze_and_compile`: on success the generated text, on
any exception the inline error string. -/
def analyze_and_compile (api : ChatApi) (an : LLMAnalyzer) (data : FetchBundle) :
    String :=
  match api (analyzeRequest an data) with
  | .ok content => content
  | .error e => "Error generating analysis: " ++ e

/-- The `source_names` dict lookup (`.get(source_type, source_type)`). -/
def sourceName (source_type : String) : String :=
  if source_type = "x_posts" then "X/Twitter Posts"
  else if source_type = "github_repos" then "GitHub Repositories"
  else if source_type = "arxiv_papers" then "arXiv Papers"
  else source_type

/-- The prompt `summarize_single_source` builds for a non-empty item
list. -/
def singlePrompt (source_type : String) (items : List FetchRecord) : String :=
  "Summarize the following " ++ sourceName source_type ++
  " \nabout AI/LLM/Robotics. Highlight the most important/trending items and include URLs as citations.\n\n" ++
  formatItems items ++
  "\n\nProvide a concise summary with key takeaways and links to the most notable items."

/-- The completion request `summarize_single_source` submits. -/
def singleRequest (an : LLMAnalyzer) (source_type : String)
    (items : List FetchRecord) : ChatReq :=
  { model := an.model,
    messages := [⟨"user", singlePrompt source_type items⟩],
    temperature := 7 / 10,
    max_tokens := 1500 }

/-- `LLMAnalyzer.summarize_single_source`: the placeholder for an empty
item list (`if not items`), otherwise the generated text or the inline
error string. -/
def summarize_single_source (api : ChatApi) (an : LLMAnalyzer)
    (source_type : String) (items : List FetchRecord) : String :=
  if items = [] then "No " ++ source_type ++ " data available."
  else
    match api (singleRequest an source_type items) with
    | .ok content => content
    | .error e => "Error summarizing " ++ source_type ++ ": " ++ e

/-! ## report_generator.py -/

/-- `ReportGenerator.generate_header` (`datetime.now().strftime(...)` is
passed in as `now`). -/
def generate_header (date_range : DateRange) (now : String) : String :=
  "# 🤖 AI/ML/Robotics Weekly Digest\n\n**Generated**: " ++ now ++ "  \n" ++
  "**Period**: " ++ date_range.start ++ " to " ++ date_range.«end» ++
  "\n\n---\n\n"

/-- `ReportGenerator.generate_stats_section`. -/
def generate_stats_section (data : FetchBundle) : String :=
  let x_count := data.x_posts.length
  let github_count := data.github_repos.length
  let arxiv_count := data.arxiv_papers.length
  "## 📊 Data Summary\n\n| Source | Items Collected |\n|--------|-----------------|\n| X/Twitter Posts | " ++
  toString x_count ++ " |\n| GitHub Repositories | " ++
  toString github_count ++ " |\n| arXiv Papers | " ++
  toString arxiv_count ++ " |\n| **Total** | **" ++
  toString (x_count + github_count + arxiv_count) ++ "** |\n\n---\n\n"

/-- The stats table as a template over the four numbers it reports (three
per-category counts and the total); stated after the wording of the spec,
to compare with `generate_stats_section`, which computes the numbers from
the bundle. -/
def statsTableSpec (x g a total : Nat) : String :=
  "## 📊 Data Summary\n\n| Source | Items Collected |\n|--------|-----------------|\n| X/Twitter Posts | " ++
  toString x ++ " |\n| GitHub Repositories | " ++
  toString g ++ " |\n| arXiv Papers | " ++
  toString a ++ " |\n| **Total** | **" ++
  toString total ++ "** |\n\n---\n\n"

/-- The static tail of `format_full_report` (methodology footer). -/
def reportFooter : String :=
  "\n\n---\n\n## 📝 Methodology\n\nThis digest was compiled using:\n- **Exa AI** for intelligent web search and content extraction\n- **OpenRouter** for LLM analysis and synthesis\n- Data sources: X/Twitter, GitHub, arXiv\n\n---\n\n*Generated automatically by RecentNews AI Digest System*\n"

/-- `ReportGenerator.format_full_report`:
`f"{header}{stats}{analysis}\n\n---\n..."`. -/
def format_full_report (data : FetchBundle) (analysis : String) (now : String) :
    String :=
  generate_header data.date_range now ++ generate_stats_section data ++
  analysis ++ reportFooter

/-- Substring containment on strings (used to state what a rendered
document carries). -/
def strContains (big small : String) : Prop :=
  ∃ pre post : String, big = pre ++ small ++ post

/-! ## Concrete sample inputs (used to exercise the theorems) -/

/-- A concrete search result. -/
def sampleResult : ExaResult :=
  { url := "https://x.com/ai/status/1", title := some "Post", text := some "body",
    highlights := ["h1", "h2"], published_date := some "2026-10-05",
    author := some "alice" }

/-- A concrete GitHub search result. -/
def sampleGithubResult : ExaResult :=
  { url := "https://github.com/acme/tool", title := some "acme/tool",
    text := some "desc", highlights := [], published_date := none,
    author := none }

/-- A concrete date range. -/
def sampleDateRange : DateRange := { start := "2026-10-05", «end» := "2026-10-12" }

/-- A concrete analyzer state. -/
def sampleAnalyzer : LLMAnalyzer :=
  { api_key := "k", base_url := OPENROUTER_BASE_URL, model := DEFAULT_MODEL }

/-- A concrete bundle with a single X/Twitter record. -/
def sampleBundle : FetchBundle :=
  { x_posts := [mkXPost "LLM" sampleResult], github_repos := [],
    arxiv_papers := [], fetch_date := "2026-10-12T00:00:00",
    date_range := sampleDateRange }

/-- A completion API that always raises. -/
def failingChatApi : ChatApi := fun _ => .error "boom"

/-- A search API that always succeeds with one result. -/
def okApi : ExaApi := fun _ => .ok [sampleResult]

/-- A search API that honors the requested result limit. -/
def boundedApi : ExaApi := fun req =>
  .ok (List.replicate (min 1 req.num_results) sampleResult)

/-- A search API that succeeds for topic `"a"` in every category and
raises for every other request (in particular for topic `"b"`). -/
def mixedOutcomeApi : ExaApi := fun req =>
  if req.query = "a AI breakthrough OR announcement site:twitter.com OR site:x.com" then
    .ok [sampleResult]
  else if req.query = "a repository stars site:github.com" then
    .ok [sampleGithubResult]
  else if req.query = "a research paper site:arxiv.org" then
    .ok [sampleResult]
  else .error "simulated request failure"

/-- A search API that always succeeds with no results. -/
def emptyApi : ExaApi := fun _ => .ok []

/-- A search API that agrees with `emptyApi` everywhere except on the
X-category query of topic `"t4"`, where it raises. -/
def beyondLimitApi : ExaApi := fun req =>
  if req.query = "t4 AI breakthrough OR announcement site:twitter.com OR site:x.com" then
    .error "the X fetch never issues the query of the fourth topic"
  else .ok []

/-! ## Helper lemmas -/

theorem strContains_self (s : String) : strContains s s :=
  ⟨"", "", by rw [String.empty_append, String.append_empty]⟩

theorem strContains_append_right {a s : String} (h : strContains a s)
    (b : String) : strContains (a ++ b) s := by
  obtain ⟨p, q, rfl⟩ := h
  exact ⟨p, q ++ b, String.append_assoc _ q b⟩

theorem strContains_append_left {a s : String} (b : String)
    (h : strContains a s) : strContains (b ++ a) s := by
  obtain ⟨p, q, rfl⟩ := h
  exact ⟨b ++ p, q, by simp only [String.append_assoc]⟩

theorem strContains_trans {a b c : String} (h1 : strContains a b)
    (h2 : strContains b c) : strContains a c := by
  obtain ⟨p, q, rfl⟩ := h1
  obtain ⟨r, t, rfl⟩ := h2
  exact ⟨p ++ r, t ++ q, by simp only [String.append_assoc]⟩

theorem strContains_pyJoin (sep : String) {l : List String} {s : String}
    (h : s ∈ l) : strContains (pyJoin sep l) s := by
  induction l with
  | nil => cases h
  | cons a as ih =>
    rcases List.mem_cons.mp h with rfl | hmem
    · cases as with
      | nil => exact strContains_self s
      | cons b bs =>
        exact strContains_append_right
          (strContains_append_right (strContains_self s) sep) (pyJoin sep (b :: bs))
    · cases as with
      | nil => cases hmem
      | cons b bs => exact strContains_append_left (a ++ sep) (ih hmem)

theorem pyCap_length (o : Option String) (n : Nat) :
    (pyCap o n).data.length ≤ n := by
  cases o with
  | none => simp [pyCap]
  | some s =>
    by_cases hs : s = ""
    · simp [pyCap, hs]
    · simp only [pyCap, if_neg hs, strTake, List.length_take]
      exact Nat.min_le_left _ _

theorem fetchLoop_length_le (api : ExaApi) (mkReq : String → SearchReq)
    (mkRec : String → ExaResult → FetchRecord) (l : List String) (n : Nat)
    (h : ∀ t ∈ l, ∀ rs, api (mkReq t) = .ok rs → rs.length ≤ n) :
    (fetchLoop api mkReq mkRec l).length ≤ l.length * n := by
  induction l with
  | nil => simp [fetchLoop]
  | cons t ts ih =>
    simp only [fetchLoop, List.length_append, List.length_cons]
    have h1 : (match api (mkReq t) with
        | .ok results => results.map (mkRec t)
        | .error _ => []).length ≤ n := by
      cases hc : api (mkReq t) with
      | ok rs => simpa using h t (by simp) rs hc
      | error e => simp
    have h2 := ih (fun t' ht' rs hrs => h t' (by simp [ht']) rs hrs)
    calc (match api (mkReq t) with
          | .ok results => results.map (mkRec t)
          | .error _ => []).length + (fetchLoop api mkReq mkRec ts).length
        ≤ n + ts.length * n := Nat.add_le_add h1 h2
      _ = (ts.length + 1) * n := by ring

theorem fetchLoop_sublist (api : ExaApi) (mkReq : String → SearchReq)
    (mkRec : String → ExaResult → FetchRecord) {l : List String} {t : String}
    {rs : List ExaResult} (ht : t ∈ l) (hok : api (mkReq t) = .ok rs) :
    List.Sublist (rs.map (mkRec t)) (fetchLoop api mkReq mkRec l) := by
  induction l with
  | nil => cases ht
  | cons a as ih =>
    rcases List.mem_cons.mp ht with rfl | hmem
    · simp only [fetchLoop, hok]
      exact List.sublist_append_left _ _
    · exact (ih hmem).trans (List.sublist_append_right _ _)

theorem fetchLoop_congr (api api' : ExaApi) (mkReq : String → SearchReq)
    (mkRec : String → ExaResult → FetchRecord) {l : List String}
    (h : ∀ t ∈ l, api (mkReq t) = api' (mkReq t)) :
    fetchLoop api mkReq mkRec l = fetchLoop api' mkReq mkRec l := by
  induction l with
  | nil => rfl
  | cons a as ih =>
    simp only [fetchLoop]
    rw [h a (by simp), ih (fun t ht => h t (by simp [ht]))]

theorem mem_fetchLoop (api : ExaApi) (mkReq : String → SearchReq)
    (mkRec : String → ExaResult → FetchRecord) {l : List String}
    {rec : FetchRecord} (h : rec ∈ fetchLoop api mkReq mkRec l) :
    ∃ t r, rec = mkRec t r := by
  induction l with
  | nil => cases h
  | cons a as ih =>
    simp only [fetchLoop] at h
    rcases List.mem_append.mp h with h1 | h2
    · cases hc : api (mkReq a) with
      | ok rs =>
        rw [hc] at h1
        obtain ⟨r, _, he⟩ := List.mem_map.mp h1
        exact ⟨a, r, he.symm⟩
      | error e => rw [hc] at h1; cases h1
    · exact ih h2

theorem mem_formatItemsAux {items : List FetchRecord} {item : FetchRecord}
    (k : Nat) (h : item ∈ items) :
    ∃ i, formatEntry i item ∈ formatItemsAux k items := by
  induction items generalizing k with
  | nil => cases h
  | cons a as ih =>
    rcases List.mem_cons.mp h with rfl | hmem
    · exact ⟨k, by simp [formatItemsAux]⟩
    · obtain ⟨i, hi⟩ := ih (k + 1) hmem
      exact ⟨i, by simp [formatItemsAux, hi]⟩

theorem strContains_formatItems {items : List FetchRecord} {item : FetchRecord}
    (h : item ∈ items) :
    ∃ i, strContains (formatItems items) (formatEntry i item) := by
  obtain ⟨i, hi⟩ := mem_formatItemsAux 1 h
  exact ⟨i, strContains_pyJoin "\n" hi⟩

theorem prepareContext_contains_x {data : FetchBundle} (h : data.x_posts ≠ []) :
    strContains (prepareContext data) (formatItems data.x_posts) := by
  unfold prepareContext
  simp only [if_neg h]
  refine strContains_pyJoin "\n" ?_
  exact List.mem_append_left _ (List.mem_append_left _ (by simp))

theorem prepareContext_contains_github {data : FetchBundle}
    (h : data.github_repos ≠ []) :
    strContains (prepareContext data) (formatItems data.github_repos) := by
  unfold prepareContext
  simp only [if_neg h]
  refine strContains_pyJoin "\n" ?_
  exact List.mem_append_left _ (List.mem_append_right _ (by simp))

theorem prepareContext_contains_arxiv {data : FetchBundle}
    (h : data.arxiv_papers ≠ []) :
    strContains (prepareContext data) (formatItems data.arxiv_papers) := by
  unfold prepareContext
  simp only [if_neg h]
  exact strContains_pyJoin "\n" (List.mem_append_right _ (by simp))

theorem userPrompt_contains_context (data : FetchBundle) :
    strContains (userPrompt data) (prepareContext data) := by
  refine ⟨"Please analyze the following data collected over the past week and compile \na comprehensive AI/ML/Robotics weekly digest with full citations and links.\n\nDate Range: " ++
    data.date_range.start ++ " to " ++ data.date_range.«end» ++ "\n\n",
    "\n\nPlease compile a comprehensive report with analysis, insights, and proper citations (include URLs).", ?_⟩
  simp only [userPrompt, String.append_assoc]

theorem entryCore_contains_source (i : Nat) (item : FetchRecord) :
    strContains (entryCore i item) ("- **Source**: " ++ item.source) := by
  refine ⟨"\n### Item " ++ toString i ++ "\n",
    "\n" ++ "- **Topic**: " ++ item.topic ++ "\n" ++ "- **Title**: " ++
    item.title ++ "\n" ++ "- **URL**: " ++ item.url ++ "\n" ++ "- **Date**: " ++
    dateOf item ++ "\n" ++ "- **Content**: " ++ contentOf item ++ "\n", ?_⟩
  simp only [entryCore, String.append_assoc]

theorem entryCore_contains_topic (i : Nat) (item : FetchRecord) :
    strContains (entryCore i item) ("- **Topic**: " ++ item.topic) := by
  refine ⟨"\n### Item " ++ toString i ++ "\n" ++ "- **Source**: " ++
    item.source ++ "\n",
    "\n" ++ "- **Title**: " ++ item.title ++ "\n" ++ "- **URL**: " ++
    item.url ++ "\n" ++ "- **Date**: " ++ dateOf item ++ "\n" ++
    "- **Content**: " ++ contentOf item ++ "\n", ?_⟩
  simp only [entryCore, String.append_assoc]

theorem entryCore_contains_title (i : Nat) (item : FetchRecord) :
    strContains (entryCore i item) ("- **Title**: " ++ item.title) := by
  refine ⟨"\n### Item " ++ toString i ++ "\n" ++ "- **Source**: " ++
    item.source ++ "\n" ++ "- **Topic**: " ++ item.topic ++ "\n",
    "\n" ++ "- **URL**: " ++ item.url ++ "\n" ++ "- **Date**: " ++
    dateOf item ++ "\n" ++ "- **Content**: " ++ contentOf item ++ "\n", ?_⟩
  simp only [entryCore, String.append_assoc]

theorem entryCore_contains_url (i : Nat) (item : FetchRecord) :
    strContains (entryCore i item) ("- **URL**: " ++ item.url) := by
  refine ⟨"\n### Item " ++ toString i ++ "\n" ++ "- **Source**: " ++
    item.source ++ "\n" ++ "- **Topic**: " ++ item.topic ++ "\n" ++
    "- **Title**: " ++ item.title ++ "\n",
    "\n" ++ "- **Date**: " ++ dateOf item ++ "\n" ++ "- **Content**: " ++
    contentOf item ++ "\n", ?_⟩
  simp only [entryCore, String.append_assoc]

theorem entryCore_contains_date (i : Nat) (item : FetchRecord) :
    strContains (entryCore i item) ("- **Date**: " ++ dateOf item) := by
  refine ⟨"\n### Item " ++ toString i ++ "\n" ++ "- **Source**: " ++
    item.source ++ "\n" ++ "- **Topic**: " ++ item.topic ++ "\n" ++
    "- **Title**: " ++ item.title ++ "\n" ++ "- **URL**: " ++ item.url ++ "\n",
    "\n" ++ "- **Content**: " ++ contentOf item ++ "\n", ?_⟩
  simp only [entryCore, String.append_assoc]

theorem entryCore_contains_content (i : Nat) (item : FetchRecord) :
    strContains (entryCore i item) ("- **Content**: " ++ contentOf item) := by
  refine ⟨"\n### Item " ++ toString i ++ "\n" ++ "- **Source**: " ++
    item.source ++ "\n" ++ "- **Topic**: " ++ item.topic ++ "\n" ++
    "- **Title**: " ++ item.title ++ "\n" ++ "- **URL**: " ++ item.url ++
    "\n" ++ "- **Date**: " ++ dateOf item ++ "\n", "\n", ?_⟩
  simp only [entryCore, String.append_assoc]

theorem strContains_formatEntry_of_core {i : Nat} {item : FetchRecord}
    {s : String} (h : strContains (entryCore i item) s) :
    strContains (formatEntry i item) s := by
  unfold formatEntry
  split
  · exact h
  · exact strContains_append_right
      (strContains_append_right (strContains_append_right h _) _) _

theorem formatEntry_contains_highlights (i : Nat) (item : FetchRecord)
    (h : item.highlights ≠ []) :
    strContains (formatEntry i item)
      ("- **Key Highlights**: " ++ pyJoin " | " (item.highlights.take 3)) := by
  unfold formatEntry
  rw [if_neg h]
  exact ⟨entryCore i item, "\n", by simp only [String.append_assoc]⟩

/-! ## Claim theorems -/

/-- C1: for every topic list, if the search API honors the requested
result limit, `fetch_all` returns a bundle in which `x_posts` and
`github_repos` have length at most `min (len topics) 3 * 10` and
`arxiv_papers` at most `min (len topics) 4 * 10` (the result limit being
`SEARCH_SETTINGS["num_results"] = 10`). -/
theorem fetch_all_length_bounds (api : ExaApi) (dr : DateRange)
    (fetch_date : String) (topics : List String)
    (hapi : ∀ req rs, api req = .ok rs → rs.length ≤ req.num_results) :
    (fetch_all api dr fetch_date topics).x_posts.length ≤ min topics.length 3 * 10 ∧
    (fetch_all api dr fetch_date topics).github_repos.length ≤ min topics.length 3 * 10 ∧
    (fetch_all api dr fetch_date topics).arxiv_papers.length ≤ min topics.length 4 * 10 := by
  refine ⟨?_, ?_, ?_⟩
  · have h := fetchLoop_length_le api (xSearchReq dr) mkXPost (topics.take 3) 10
      (fun t _ rs hrs => hapi (xSearchReq dr t) rs hrs)
    simpa [fetch_all, fetch_x_posts, List.length_take, Nat.min_comm] using h
  · have h := fetchLoop_length_le api (githubSearchReq dr) mkGithubRepo
      (topics.take 3) 10 (fun t _ rs hrs => hapi (githubSearchReq dr t) rs hrs)
    simpa [fetch_all, fetch_github_trending, List.length_take, Nat.min_comm] using h
  · have h := fetchLoop_length_le api (arxivSearchReq dr) mkArxiv
      (topics.take 4) 10 (fun t _ rs hrs => hapi (arxivSearchReq dr t) rs hrs)
    simpa [fetch_all, fetch_arxiv_papers, List.length_take, Nat.min_comm] using h

/-- C1 witness: a search API honoring the limit, five topics. -/
theorem fetch_all_length_bounds_witness :
    (∀ req rs, boundedApi req = .ok rs → rs.length ≤ req.num_results) ∧
    (fetch_all boundedApi sampleDateRange "d" ["t1", "t2", "t3", "t4", "t5"]).x_posts.length ≤
      min (["t1", "t2", "t3", "t4", "t5"] : List String).length 3 * 10 ∧
    (fetch_all boundedApi sampleDateRange "d" ["t1", "t2", "t3", "t4", "t5"]).github_repos.length ≤
      min (["t1", "t2", "t3", "t4", "t5"] : List String).length 3 * 10 ∧
    (fetch_all boundedApi sampleDateRange "d" ["t1", "t2", "t3", "t4", "t5"]).arxiv_papers.length ≤
      min (["t1", "t2", "t3", "t4", "t5"] : List String).length 4 * 10 := by
  have hb : ∀ req rs, boundedApi req = .ok rs → rs.length ≤ req.num_results := by
    intro req rs h
    simp only [boundedApi, Except.ok.injEq] at h
    subst h
    simp only [List.length_replicate]
    exact Nat.min_le_right _ _
  exact ⟨hb, fetch_all_length_bounds boundedApi sampleDateRange "d"
    ["t1", "t2", "t3", "t4", "t5"] hb⟩

/-- C2: a per-topic search failure is skipped without propagating: for any
topic whose call succeeds with results `rs`, those records all appear (in
order) in the corresponding sequence of the `fetch_all` bundle, whatever
the API does on the other topics of the same category. -/
theorem fetch_all_keeps_succeeding_topics (api : ExaApi) (dr : DateRange)
    (fetch_date : String) (topics : List String) (t u v : String)
    (rsx rsg rsa : List ExaResult) :
    (t ∈ topics.take 3 → api (xSearchReq dr t) = .ok rsx →
      List.Sublist (rsx.map (mkXPost t))
        ((fetch_all api dr fetch_date topics).x_posts)) ∧
    (u ∈ topics.take 3 → api (githubSearchReq dr u) = .ok rsg →
      List.Sublist (rsg.map (mkGithubRepo u))
        ((fetch_all api dr fetch_date topics).github_repos)) ∧
    (v ∈ topics.take 4 → api (arxivSearchReq dr v) = .ok rsa →
      List.Sublist (rsa.map (mkArxiv v))
        ((fetch_all api dr fetch_date topics).arxiv_papers)) := by
  refine ⟨fun ht hok => ?_, fun hu hok => ?_, fun hv hok => ?_⟩
  · exact fetchLoop_sublist api (xSearchReq dr) mkXPost ht hok
  · exact fetchLoop_sublist api (githubSearchReq dr) mkGithubRepo hu hok
  · exact fetchLoop_sublist api (arxivSearchReq dr) mkArxiv hv hok

/-- C2 witness: topic `"a"` succeeds, topic `"b"` raises in every
category; the records of topic `"a"` survive in the bundle. -/
theorem fetch_all_keeps_succeeding_topics_witness :
    ("a" ∈ (["a", "b"] : List String).take 3) ∧
    (mixedOutcomeApi (xSearchReq sampleDateRange "a") = .ok [sampleResult]) ∧
    (mixedOutcomeApi (xSearchReq sampleDateRange "b") = .error "simulated request failure") ∧
    (mixedOutcomeApi (githubSearchReq sampleDateRange "a") = .ok [sampleGithubResult]) ∧
    (mixedOutcomeApi (arxivSearchReq sampleDateRange "a") = .ok [sampleResult]) ∧
    List.Sublist ([sampleResult].map (mkXPost "a"))
      ((fetch_all mixedOutcomeApi sampleDateRange "d" ["a", "b"]).x_posts) ∧
    List.Sublist ([sampleGithubResult].map (mkGithubRepo "a"))
      ((fetch_all mixedOutcomeApi sampleDateRange "d" ["a", "b"]).github_repos) ∧
    List.Sublist ([sampleResult].map (mkArxiv "a"))
      ((fetch_all mixedOutcomeApi sampleDateRange "d" ["a", "b"]).arxiv_papers) := by
  have hmem3 : "a" ∈ (["a", "b"] : List String).take 3 := by simp
  have hmem4 : "a" ∈ (["a", "b"] : List String).take 4 := by simp
  have h := fetch_all_keeps_succeeding_topics mixedOutcomeApi sampleDateRange "d"
    ["a", "b"] "a" "a" "a" [sampleResult] [sampleGithubResult] [sampleResult]
  exact ⟨hmem3, rfl, rfl, rfl, rfl, h.1 hmem3 rfl, h.2.1 hmem3 rfl, h.2.2 hmem4 rfl⟩

/-- C9: each category fetch consults the API only on the queries of the
truncated topic prefix (first 3 topics for X and GitHub, first 4 for
arXiv): two APIs agreeing on those queries yield identical fetches, so a
topic beyond the prefix is never queried. -/
theorem fetch_queries_only_topic_prefixes (api api' : ExaApi) (dr : DateRange)
    (topics : List String)
    (hx : ∀ t ∈ topics.take 3, api (xSearchReq dr t) = api' (xSearchReq dr t))
    (hg : ∀ t ∈ topics.take 3, api (githubSearchReq dr t) = api' (githubSearchReq dr t))
    (ha : ∀ t ∈ topics.take 4, api (arxivSearchReq dr t) = api' (arxivSearchReq dr t)) :
    fetch_x_posts api dr topics = fetch_x_posts api' dr topics ∧
    fetch_github_trending api dr topics = fetch_github_trending api' dr topics ∧
    fetch_arxiv_papers api dr topics = fetch_arxiv_papers api' dr topics :=
  ⟨fetchLoop_congr api api' (xSearchReq dr) mkXPost hx,
   fetchLoop_congr api api' (githubSearchReq dr) mkGithubRepo hg,
   fetchLoop_congr api api' (arxivSearchReq dr) mkArxiv ha⟩

/-- C9 witness: an API raising on the fourth topic's X query behaves like
one that never raises — that query is never issued. -/
theorem fetch_queries_only_topic_prefixes_witness :
    (∀ t ∈ (["t1", "t2", "t3", "t4"] : List String).take 3,
      emptyApi (xSearchReq sampleDateRange t) = beyondLimitApi (xSearchReq sampleDateRange t)) ∧
    (∀ t ∈ (["t1", "t2", "t3", "t4"] : List String).take 3,
      emptyApi (githubSearchReq sampleDateRange t) = beyondLimitApi (githubSearchReq sampleDateRange t)) ∧
    (∀ t ∈ (["t1", "t2", "t3", "t4"] : List String).take 4,
      emptyApi (arxivSearchReq sampleDateRange t) = beyondLimitApi (arxivSearchReq sampleDateRange t)) ∧
    fetch_x_posts emptyApi sampleDateRange ["t1", "t2", "t3", "t4"] =
      fetch_x_posts beyondLimitApi sampleDateRange ["t1", "t2", "t3", "t4"] := by
  have hx : ∀ t ∈ (["t1", "t2", "t3", "t4"] : List String).take 3,
      emptyApi (xSearchReq sampleDateRange t) = beyondLimitApi (xSearchReq sampleDateRange t) := by
    intro t ht
    have ht' : t ∈ (["t1", "t2", "t3"] : List String) := ht
    fin_cases ht' <;> rfl
  have hg : ∀ t ∈ (["t1", "t2", "t3", "t4"] : List String).take 3,
      emptyApi (githubSearchReq sampleDateRange t) = beyondLimitApi (githubSearchReq sampleDateRange t) := by
    intro t ht
    have ht' : t ∈ (["t1", "t2", "t3"] : List String) := ht
    fin_cases ht' <;> rfl
  have ha : ∀ t ∈ (["t1", "t2", "t3", "t4"] : List String).take 4,
      emptyApi (arxivSearchReq sampleDateRange t) = beyondLimitApi (arxivSearchReq sampleDateRange t) := by
    intro t ht
    have ht' : t ∈ (["t1", "t2", "t3", "t4"] : List String) := ht
    fin_cases ht' <;> rfl
  exact ⟨hx, hg, ha,
    (fetch_queries_only_topic_prefixes emptyApi beyondLimitApi sampleDateRange
      ["t1", "t2", "t3", "t4"] hx hg ha).1⟩

/-- C4: every record a category fetch produces carries its excerpt under
the category's cap: the `text` of an X/Twitter record and the
`description` of a GitHub record hold at most 500 characters, the
`abstract` of an arXiv record at most 800 — whatever the API returns. -/
theorem fetch_excerpt_caps (api : ExaApi) (dr : DateRange)
    (topics : List String) (recx recg reca : FetchRecord) :
    (recx ∈ fetch_x_posts api dr topics →
      ∃ s, recx.text = some s ∧ s.data.length ≤ 500) ∧
    (recg ∈ fetch_github_trending api dr topics →
      ∃ s, recg.description = some s ∧ s.data.length ≤ 500) ∧
    (reca ∈ fetch_arxiv_papers api dr topics →
      ∃ s, reca.abstract = some s ∧ s.data.length ≤ 800) := by
  refine ⟨fun hm => ?_, fun hm => ?_, fun hm => ?_⟩
  · obtain ⟨t, r, rfl⟩ := mem_fetchLoop api (xSearchReq dr) mkXPost hm
    exact ⟨pyCap r.text 500, rfl, pyCap_length r.text 500⟩
  · obtain ⟨t, r, rfl⟩ := mem_fetchLoop api (githubSearchReq dr) mkGithubRepo hm
    exact ⟨pyCap r.text 500, rfl, pyCap_length r.text 500⟩
  · obtain ⟨t, r, rfl⟩ := mem_fetchLoop api (arxivSearchReq dr) mkArxiv hm
    exact ⟨pyCap r.text 800, rfl, pyCap_length r.text 800⟩

/-- C4 witness: records produced from a concrete API response satisfy the
caps. -/
theorem fetch_excerpt_caps_witness :
    (mkXPost "t" sampleResult ∈ fetch_x_posts okApi sampleDateRange ["t"]) ∧
    (∃ s, (mkXPost "t" sampleResult).text = some s ∧ s.data.length ≤ 500) ∧
    (mkGithubRepo "t" sampleResult ∈ fetch_github_trending okApi sampleDateRange ["t"]) ∧
    (∃ s, (mkGithubRepo "t" sampleResult).description = some s ∧ s.data.length ≤ 500) ∧
    (mkArxiv "t" sampleResult ∈ fetch_arxiv_papers okApi sampleDateRange ["t"]) ∧
    (∃ s, (mkArxiv "t" sampleResult).abstract = some s ∧ s.data.length ≤ 800) := by
  have h := fetch_excerpt_caps okApi sampleDateRange ["t"]
    (mkXPost "t" sampleResult) (mkGithubRepo "t" sampleResult)
    (mkArxiv "t" sampleResult)
  have hmx : mkXPost "t" sampleResult ∈ fetch_x_posts okApi sampleDateRange ["t"] := by
    simp [fetch_x_posts, fetchLoop, okApi]
  have hmg : mkGithubRepo "t" sampleResult ∈ fetch_github_trending okApi sampleDateRange ["t"] := by
    simp [fetch_github_trending, fetchLoop, okApi]
  have hma : mkArxiv "t" sampleResult ∈ fetch_arxiv_papers okApi sampleDateRange ["t"] := by
    simp [fetch_arxiv_papers, fetchLoop, okApi]
  exact ⟨hmx, h.1 hmx, hmg, h.2.1 hmg, hma, h.2.2 hma⟩

/-- C5: with the search API key absent from the environment the Fetcher
constructor fails with the configuration `ValueError` (it issues no
request — it returns before any client use); likewise the Analyzer
constructor with the completion API key absent. -/
theorem init_requires_api_keys (model : Option String) :
    exaFetcherInit none = .error "EXA_API_KEY not set. Please add it to your .env file." ∧
    llmAnalyzerInit none model = .error "OPENROUTER_API_KEY not set. Please add it to your .env file." :=
  ⟨rfl, rfl⟩

/-- C6: on any completion-request failure `analyze_and_compile` and
`summarize_single_source` do not propagate the exception: they return the
inline error strings built from it. -/
theorem analyzer_error_policy (api : ChatApi) (an : LLMAnalyzer)
    (data : FetchBundle) (source_type : String) (items : List FetchRecord)
    (e e' : String)
    (h1 : api (analyzeRequest an data) = .error e)
    (h2 : items ≠ [])
    (h3 : api (singleRequest an source_type items) = .error e') :
    analyze_and_compile api an data = "Error generating analysis: " ++ e ∧
    summarize_single_source api an source_type items =
      "Error summarizing " ++ source_type ++ ": " ++ e' := by
  constructor
  · simp [analyze_and_compile, h1]
  · simp [summarize_single_source, h2, h3]

/-- C6 witness: a completion API that always raises. -/
theorem analyzer_error_policy_witness :
    (failingChatApi (analyzeRequest sampleAnalyzer sampleBundle) = .error "boom") ∧
    (([mkXPost "LLM" sampleResult] : List FetchRecord) ≠ []) ∧
    (failingChatApi (singleRequest sampleAnalyzer "x_posts" [mkXPost "LLM" sampleResult]) = .error "boom") ∧
    analyze_and_compile failingChatApi sampleAnalyzer sampleBundle =
      "Error generating analysis: " ++ "boom" ∧
    summarize_single_source failingChatApi sampleAnalyzer "x_posts"
        [mkXPost "LLM" sampleResult] =
      "Error summarizing " ++ "x_posts" ++ ": " ++ "boom" := by
  have h2 : ([mkXPost "LLM" sampleResult] : List FetchRecord) ≠ [] := by simp
  have h := analyzer_error_policy failingChatApi sampleAnalyzer sampleBundle
    "x_posts" [mkXPost "LLM" sampleResult] "boom" "boom" rfl h2 rfl
  exact ⟨rfl, h2, rfl, h.1, h.2⟩

/-- C10: for the empty item list `summarize_single_source` returns the
fixed placeholder immediately — for every completion API alike, so no
request is issued. -/
theorem summarize_empty_placeholder (api : ChatApi) (an : LLMAnalyzer)
    (source_type : String) :
    summarize_single_source api an source_type [] =
      "No " ++ source_type ++ " data available." := rfl

/-- C3: the stats section reports exactly the three sequence lengths of
the bundle and a total equal to their sum (for every bundle, the empty one
included). -/
theorem stats_section_reports_lengths (data : FetchBundle) :
    generate_stats_section data =
      statsTableSpec data.x_posts.length data.github_repos.length
        data.arxiv_papers.length
        (data.x_posts.length + data.github_repos.length + data.arxiv_papers.length) :=
  rfl

/-- C7: the full report is exactly the header (which carries the bundle's
date range), then the stats table, then the narrative unmodified, then the
static footer — in that order. -/
theorem report_structure (data : FetchBundle) (analysis now : String) :
    format_full_report data analysis now =
      generate_header data.date_range now ++ generate_stats_section data ++
        analysis ++ reportFooter ∧
    strContains (generate_header data.date_range now)
      ("**Period**: " ++ data.date_range.start ++ " to " ++ data.date_range.«end») := by
  refine ⟨rfl, ?_⟩
  refine ⟨"# 🤖 AI/ML/Robotics Weekly Digest\n\n**Generated**: " ++ now ++ "  \n",
    "\n\n---\n\n", ?_⟩
  simp only [generate_header, String.append_assoc]

/-- C8: `analyze_and_compile` submits the fixed system+user prompt pair,
the user prompt contains every record of the bundle serialized as a
stanza, and each stanza carries the record's source, topic, title, URL,
date, content and (when present) highlights. -/
theorem analyzer_serializes_all_records (an : LLMAnalyzer) (data : FetchBundle) :
    (analyzeRequest an data).messages =
      [⟨"system", systemPrompt⟩, ⟨"user", userPrompt data⟩] ∧
    (∀ item, item ∈ data.x_posts ++ data.github_repos ++ data.arxiv_papers →
      ∃ i, strContains (userPrompt data) (formatEntry i item)) ∧
    (∀ i item,
      strContains (formatEntry i item) ("- **Source**: " ++ FetchRecord.source item) ∧
      strContains (formatEntry i item) ("- **Topic**: " ++ FetchRecord.topic item) ∧
      strContains (formatEntry i item) ("- **Title**: " ++ FetchRecord.title item) ∧
      strContains (formatEntry i item) ("- **URL**: " ++ FetchRecord.url item) ∧
      strContains (formatEntry i item) ("- **Date**: " ++ dateOf item) ∧
      strContains (formatEntry i item) ("- **Content**: " ++ contentOf item) ∧
      (FetchRecord.highlights item ≠ [] →
        strContains (formatEntry i item)
          ("- **Key Highlights**: " ++ pyJoin " | " ((FetchRecord.highlights item).take 3)))) := by
  refine ⟨rfl, fun item hm => ?_, fun i item => ?_⟩
  · rcases List.mem_append.mp hm with hm' | hma
    · rcases List.mem_append.mp hm' with hmx | hmg
      · obtain ⟨i, hi⟩ := strContains_formatItems hmx
        exact ⟨i, strContains_trans (userPrompt_contains_context data)
          (strContains_trans (prepareContext_contains_x (List.ne_nil_of_mem hmx)) hi)⟩
      · obtain ⟨i, hi⟩ := strContains_formatItems hmg
        exact ⟨i, strContains_trans (userPrompt_contains_context data)
          (strContains_trans (prepareContext_contains_github (List.ne_nil_of_mem hmg)) hi)⟩
    · obtain ⟨i, hi⟩ := strContains_formatItems hma
      exact ⟨i, strContains_trans (userPrompt_contains_context data)
        (strContains_trans (prepareContext_contains_arxiv (List.ne_nil_of_mem hma)) hi)⟩
  · exact ⟨strContains_formatEntry_of_core (entryCore_contains_source i item),
      strContains_formatEntry_of_core (entryCore_contains_topic i item),
      strContains_formatEntry_of_core (entryCore_contains_title i item),
      strContains_formatEntry_of_core (entryCore_contains_url i item),
      strContains_formatEntry_of_core (entryCore_contains_date i item),
      strContains_formatEntry_of_core (entryCore_contains_content i item),
      fun h => formatEntry_contains_highlights i item h⟩

/-- C8 witness: the single record of the sample bundle reaches the user
prompt as a stanza, and its highlights line is present. -/
theorem analyzer_serializes_all_records_witness :
    (mkXPost "LLM" sampleResult ∈
      sampleBundle.x_posts ++ sampleBundle.github_repos ++ sampleBundle.arxiv_papers) ∧
    (∃ i, strContains (userPrompt sampleBundle) (formatEntry i (mkXPost "LLM" sampleResult))) ∧
    (FetchRecord.highlights (mkXPost "LLM" sampleResult) ≠ []) ∧
    strContains (formatEntry 1 (mkXPost "LLM" sampleResult))
      ("- **Key Highlights**: " ++
       pyJoin " | " ((FetchRecord.highlights (mkXPost "LLM" sampleResult)).take 3)) := by
  have h := analyzer_serializes_all_records sampleAnalyzer sampleBundle
  have hmem : mkXPost "LLM" sampleResult ∈
      sampleBundle.x_posts ++ sampleBundle.github_repos ++ sampleBundle.arxiv_papers := by
    simp [sampleBundle]
  have hhl : FetchRecord.highlights (mkXPost "LLM" sampleResult) ≠ [] := by
    simp [mkXPost, sampleResult]
  exact ⟨hmem, h.2.1 _ hmem, hhl, (h.2.2 1 (mkXPost "LLM" sampleResult)).2.2.2.2.2.2 hhl⟩

end WeeklyDigest
